import Mathlib

/-!
Verification of the Thumbnail Separator front-end.

Shallow embedding of the TypeScript sources of the Thumbnail Separator
application (`src/types.ts`, `src/services/geminiService.ts`,
`src/utils/imageProcessing.ts`, `src/App.tsx`) and proofs about them.

JavaScript numbers are modelled as `ℚ` (every field typed `number` in
`types.ts`, including `zIndex`, is an IEEE double in the source; the
values the claims exercise are exact in `ℚ`).  The JavaScript `x || d`
defaulting idiom is modelled faithfully: it substitutes the default both
when the value is absent (`undefined`) and when it is falsy (`0` for
numbers, the empty string for strings).
-/

namespace ThumbnailSeparator

/-! ## Data model (`src/types.ts`) -/

/-- Enum `ElementType` from `src/types.ts`. -/
inductive ElementType where
  | PERSON
  | OBJECT
  | TEXT
  | LOGO
  | BACKGROUND
  | EFFECT
deriving DecidableEq, BEq

/-- Record `BoundingBox` from `src/types.ts`: normalized coordinates. -/
structure BoundingBox where
  ymin : ℚ
  xmin : ℚ
  ymax : ℚ
  xmax : ℚ
deriving DecidableEq

/-- Record `LayerData` from `src/types.ts`. -/
structure LayerData where
  id : String
  label : String
  type : ElementType
  subtype : Option String
  confidence : ℚ
  box : BoundingBox
  zIndex : ℚ
  dominantColor : String
  visible : Bool
  maskUrl : Option String
deriving DecidableEq

/-- The `visualWeightCenter` pair from `src/types.ts`. -/
structure WeightCenter where
  x : ℚ
  y : ℚ
deriving DecidableEq

/-- Record `CompositionAnalysis` from `src/types.ts`. -/
structure CompositionAnalysis where
  ruleOfThirdsScore : ℚ
  visualBalanceScore : ℚ
  dominantColors : List String
  brightnessMap : String
  contrastLevel : String
  suggestions : List String
  eyeContact : Bool
  visualWeightCenter : WeightCenter
deriving DecidableEq

/-- Record `ProcessingResult` from `src/types.ts`. -/
structure ProcessingResult where
  layers : List LayerData
  analysis : CompositionAnalysis
deriving DecidableEq

/-! ## Remote response shape (`src/services/geminiService.ts`)

The response schema declares `label`, `type`, `ymin`, `xmin`, `ymax`,
`xmax`, `zIndex`, `dominantColor` as required for a layer; `subtype` and
`confidence` may be absent.  For the analysis object, `brightnessMap`,
`contrastLevel`, `weightCenterX` and `weightCenterY` may be absent.
Optional fields are `Option`-typed. -/

/-- A layer as returned by the remote model, before normalization. -/
structure RawLayer where
  label : String
  type : ElementType
  subtype : Option String
  confidence : Option ℚ
  ymin : ℚ
  xmin : ℚ
  ymax : ℚ
  xmax : ℚ
  zIndex : ℚ
  dominantColor : String
deriving DecidableEq

/-- The analysis object as returned by the remote model. -/
structure RawAnalysis where
  ruleOfThirdsScore : ℚ
  visualBalanceScore : ℚ
  dominantColors : List String
  brightnessMap : Option String
  contrastLevel : Option String
  suggestions : List String
  eyeContact : Bool
  weightCenterX : Option ℚ
  weightCenterY : Option ℚ
deriving DecidableEq

/-- The whole remote response (`rawData` in `analyzeThumbnail`). -/
structure RawResponse where
  layers : List RawLayer
  analysis : RawAnalysis
deriving DecidableEq

/-- JavaScript `v || d` for an optional number: the default is taken when
the value is absent or zero (falsy). -/
def orNum (v : Option ℚ) (d : ℚ) : ℚ :=
  match v with
  | none => d
  | some x => if x = 0 then d else x

/-- JavaScript `v || d` for an optional string: the default is taken when
the value is absent or empty (falsy). -/
def orStr (v : Option String) (d : String) : String :=
  match v with
  | none => d
  | some s => if s = "" then d else s

/-! ## Normalization (`analyzeThumbnail` in `src/services/geminiService.ts`)

The network round trip, JSON parsing and the API-key check are outside the
embedded computation; the normalization applied to the parsed response is
embedded exactly.  `now` stands for `Date.now()` at mapping time. -/

/-- One entry of `rawData.layers.map((layer, index) => ...)`. -/
def normalizeLayer (now : ℕ) (index : ℕ) (l : RawLayer) : LayerData :=
  { id := "layer-" ++ toString index ++ "-" ++ toString now
    label := l.label
    type := l.type
    subtype := l.subtype
    confidence := orNum l.confidence (9/10)
    box := { ymin := l.ymin / 1000, xmin := l.xmin / 1000
             ymax := l.ymax / 1000, xmax := l.xmax / 1000 }
    zIndex := l.zIndex
    dominantColor := l.dominantColor
    visible := true
    maskUrl := none }

/-- The synthetic background layer pushed by `layers.unshift` when no
returned layer has category background. -/
def defaultBackground : LayerData :=
  { id := "layer-bg-default"
    label := "Background Environment"
    type := ElementType.BACKGROUND
    subtype := none
    confidence := 1/2
    box := { ymin := 0, xmin := 0, ymax := 1, xmax := 1 }
    zIndex := 0
    dominantColor := "#000000"
    visible := true
    maskUrl := none }

/-- Predicate `l.type === ElementType.BACKGROUND` of
`layers.some(...)`. -/
def isBackground (l : LayerData) : Bool :=
  l.type == ElementType.BACKGROUND

/-- The mapped layer list, before the background check. -/
def mappedLayers (now : ℕ) (r : RawResponse) : List LayerData :=
  r.layers.mapIdx (fun i l => normalizeLayer now i l)

/-- The layer list after the `hasBackground` check and conditional
`unshift`, still before sorting. -/
def preSortLayers (now : ℕ) (r : RawResponse) : List LayerData :=
  if (mappedLayers now r).any isBackground then mappedLayers now r
  else defaultBackground :: mappedLayers now r

/-- The comparator `(a, b) => a.zIndex - b.zIndex` orders by `zIndex`. -/
def zLe (a b : LayerData) : Prop := a.zIndex ≤ b.zIndex

instance : DecidableRel zLe := fun a b => inferInstanceAs (Decidable (a.zIndex ≤ b.zIndex))

instance : IsTotal LayerData zLe := ⟨fun a b => le_total a.zIndex b.zIndex⟩

instance : IsTrans LayerData zLe := ⟨fun _ _ _ h h' => le_trans h h'⟩

/-- Sorting step `layers.sort((a, b) => a.zIndex - b.zIndex)`: ECMAScript `sort` is
required to be stable, so it is modelled by a stable sort on `zLe`. -/
def sortLayers (ls : List LayerData) : List LayerData :=
  List.insertionSort zLe ls

/-- The analysis normalization block of `analyzeThumbnail`. -/
def normalizeAnalysis (a : RawAnalysis) : CompositionAnalysis :=
  { ruleOfThirdsScore := a.ruleOfThirdsScore
    visualBalanceScore := a.visualBalanceScore
    dominantColors := a.dominantColors
    brightnessMap := orStr a.brightnessMap "Balanced"
    contrastLevel := orStr a.contrastLevel "Medium"
    suggestions := a.suggestions
    eyeContact := a.eyeContact
    visualWeightCenter :=
      { x := orNum a.weightCenterX 50, y := orNum a.weightCenterY 50 } }

/-- The pure normalization performed by `analyzeThumbnail` on a parsed
remote response. -/
def analyzeThumbnail (now : ℕ) (r : RawResponse) : ProcessingResult :=
  { layers := sortLayers (preSortLayers now r)
    analysis := normalizeAnalysis r.analysis }

/-! ## Geometry / crop (`src/utils/imageProcessing.ts`) -/

/-- The relevant fields of an `HTMLImageElement`: natural pixel
dimensions. -/
structure ImageElement where
  naturalWidth : ℕ
  naturalHeight : ℕ

/-- The source rectangle `(sx, sy, sw, sh)` computed by `cropLayer`. -/
structure SourceRect where
  sx : ℚ
  sy : ℚ
  sw : ℚ
  sh : ℚ
deriving DecidableEq

/-- The pixel-coordinate computation of `cropLayer`:
`sx = box.xmin * width`, `sy = box.ymin * height`,
`sw = (box.xmax - box.xmin) * width`, `sh = (box.ymax - box.ymin) * height`.
No clamping to the image bounds appears in the source. -/
def cropRect (box : BoundingBox) (width height : ℚ) : SourceRect :=
  { sx := box.xmin * width
    sy := box.ymin * height
    sw := (box.xmax - box.xmin) * width
    sh := (box.ymax - box.ymin) * height }

/-- Abstraction of an acquired 2D drawing context: given the source
rectangle it produces the PNG data URL (`drawImage` + `toDataURL`). -/
structure Canvas2DContext where
  render : SourceRect → String

/-- Function `cropLayer` from `src/utils/imageProcessing.ts`.  `ctx` is the outcome
of `canvas.getContext("2d")`, which may be `null`; in that case the
function returns the empty string (`if (!ctx) return "";`) instead of
raising. -/
def cropLayer (ctx : Option Canvas2DContext) (imageElement : ImageElement)
    (box : BoundingBox) : String :=
  match ctx with
  | none => ""
  | some c =>
      c.render (cropRect box (imageElement.naturalWidth : ℚ) (imageElement.naturalHeight : ℚ))

/-- The 0–1000-to-unit rescale applied to raw box coordinates in
`analyzeThumbnail` (`layer.ymin / 1000`, ...). -/
def rescaleBox (ymin xmin ymax xmax : ℚ) : BoundingBox :=
  { ymin := ymin / 1000, xmin := xmin / 1000
    ymax := ymax / 1000, xmax := xmax / 1000 }

/-! ## Application state (`src/App.tsx`) -/

/-- The `status` field of `AppState` in `src/types.ts`. -/
inductive Status where
  | IDLE
  | ANALYZING
  | SUCCESS
  | ERROR
deriving DecidableEq

/-- Record `AppState` from `src/types.ts`. -/
structure AppState where
  status : Status
  imageSrc : Option String
  result : Option ProcessingResult
  error : Option String
deriving DecidableEq

/-- The pieces of component state in `App` that the claims touch: the
`state` object plus the separately held `selectedLayerId`. -/
structure UIState where
  app : AppState
  selectedLayerId : Option String
deriving DecidableEq

/-- The "Try Again" button of the Error screen:
`setState(prev => ({ ...prev, status: 'IDLE', error: null }))`.
Only `status` and `error` change; `imageSrc` and `result` are spread
through unchanged, and `selectedLayerId` is not touched. -/
def tryAgain (u : UIState) : UIState :=
  { u with app := { u.app with status := Status.IDLE, error := none } }

/-- The "New Project" button of the Success header:
`setState({ status: 'IDLE', imageSrc: null, result: null, error: null })`.
The whole `state` object is replaced; `selectedLayerId` is not touched. -/
def newProject (u : UIState) : UIState :=
  { u with app := { status := Status.IDLE, imageSrc := none
                    result := none, error := none } }

/-- The per-layer update of `handleToggleVisibility`:
`layers.map(l => l.id === id ? { ...l, visible: !l.visible } : l)`. -/
def toggleVis (id : String) (ls : List LayerData) : List LayerData :=
  ls.map (fun l => if l.id == id then { l with visible := !l.visible } else l)

/-- Handler `handleToggleVisibility` from `src/App.tsx`: a no-op when there is no
result, otherwise replaces the result's layer list with the toggled one,
keeping the analysis and the rest of the state. -/
def handleToggleVisibility (id : String) (s : AppState) : AppState :=
  match s.result with
  | none => s
  | some r => { s with result := some { r with layers := toggleVis id r.layers } }

/-! ## JSON export (`handleExportJSON` in `src/App.tsx`)

The export serializes `state.result` with `JSON.stringify(result, null, 2)`
and the re-parse is `JSON.parse`.  The platform pair is modelled at the
level of the JSON document tree: `JSON.stringify` maps the in-memory
object to a document (fields in property insertion order, `undefined`
optional fields omitted), and re-parsing the rendered text returns that
same document.  The round trip of the claim is then that decoding the
exported document recovers the in-memory result. -/

/-- A JSON document tree. -/
inductive Json where
  | num (q : ℚ)
  | str (s : String)
  | bool (b : Bool)
  | arr (elems : List Json)
  | obj (fields : List (String × Json))

/-- An optional string field: omitted from the document when absent,
exactly as `JSON.stringify` drops `undefined` properties. -/
def optField (k : String) : Option String → List (String × Json)
  | none => []
  | some s => [(k, Json.str s)]

/-- The string value of the `ElementType` enum member, as it appears in
the serialized document. -/
def elementTypeString : ElementType → String
  | ElementType.PERSON => "PERSON"
  | ElementType.OBJECT => "OBJECT"
  | ElementType.TEXT => "TEXT"
  | ElementType.LOGO => "LOGO"
  | ElementType.BACKGROUND => "BACKGROUND"
  | ElementType.EFFECT => "EFFECT"

/-- Serialization of a `BoundingBox`. -/
def boxToJson (b : BoundingBox) : Json :=
  Json.obj [("ymin", Json.num b.ymin), ("xmin", Json.num b.xmin),
            ("ymax", Json.num b.ymax), ("xmax", Json.num b.xmax)]

/-- Serialization of a `LayerData`, fields in the insertion order of the
object literal that built it; absent optional fields are omitted. -/
def layerToJson (l : LayerData) : Json :=
  Json.obj
    ([("id", Json.str l.id), ("label", Json.str l.label),
      ("type", Json.str (elementTypeString l.type))]
      ++ optField "subtype" l.subtype
      ++ [("confidence", Json.num l.confidence), ("box", boxToJson l.box),
          ("zIndex", Json.num l.zIndex),
          ("dominantColor", Json.str l.dominantColor),
          ("visible", Json.bool l.visible)]
      ++ optField "maskUrl" l.maskUrl)

/-- Serialization of a `CompositionAnalysis`. -/
def analysisToJson (a : CompositionAnalysis) : Json :=
  Json.obj
    [("ruleOfThirdsScore", Json.num a.ruleOfThirdsScore),
     ("visualBalanceScore", Json.num a.visualBalanceScore),
     ("dominantColors", Json.arr (a.dominantColors.map Json.str)),
     ("brightnessMap", Json.str a.brightnessMap),
     ("contrastLevel", Json.str a.contrastLevel),
     ("suggestions", Json.arr (a.suggestions.map Json.str)),
     ("eyeContact", Json.bool a.eyeContact),
     ("visualWeightCenter",
        Json.obj [("x", Json.num a.visualWeightCenter.x),
                  ("y", Json.num a.visualWeightCenter.y)])]

/-- The document written by `handleExportJSON` for the current result:
`JSON.stringify(state.result, null, 2)` at tree level. -/
def resultToJson (r : ProcessingResult) : Json :=
  Json.obj [("layers", Json.arr (r.layers.map layerToJson)),
            ("analysis", analysisToJson r.analysis)]

/-- Decoding traversal of a list, failing when any element fails. -/
def mapOption (f : α → Option β) : List α → Option (List β)
  | [] => some []
  | a :: t => do
      let b ← f a
      let bt ← mapOption f t
      pure (b :: bt)

/-- Property lookup on a parsed JSON object. -/
def getField : List (String × Json) → String → Option Json
  | [], _ => none
  | (k', v) :: fs, k => if k' = k then some v else getField fs k

/-- Reads a number out of a JSON value. -/
def asNum : Json → Option ℚ
  | Json.num q => some q
  | _ => none

/-- Reads a string out of a JSON value. -/
def asStr : Json → Option String
  | Json.str s => some s
  | _ => none

/-- Reads a boolean out of a JSON value. -/
def asBool : Json → Option Bool
  | Json.bool b => some b
  | _ => none

/-- Reads an array out of a JSON value. -/
def asArr : Json → Option (List Json)
  | Json.arr xs => some xs
  | _ => none

/-- Reads an object out of a JSON value. -/
def asObj : Json → Option (List (String × Json))
  | Json.obj fs => some fs
  | _ => none

/-- Recovers the `ElementType` member from its serialized string. -/
def stringElementType (s : String) : Option ElementType :=
  if s = "PERSON" then some ElementType.PERSON
  else if s = "OBJECT" then some ElementType.OBJECT
  else if s = "TEXT" then some ElementType.TEXT
  else if s = "LOGO" then some ElementType.LOGO
  else if s = "BACKGROUND" then some ElementType.BACKGROUND
  else if s = "EFFECT" then some ElementType.EFFECT
  else none

/-- Structural decoding of a `BoundingBox` from a parsed document. -/
def boxFromJson (j : Json) : Option BoundingBox := do
  let fs ← asObj j
  let ymin ← (getField fs "ymin").bind asNum
  let xmin ← (getField fs "xmin").bind asNum
  let ymax ← (getField fs "ymax").bind asNum
  let xmax ← (getField fs "xmax").bind asNum
  pure { ymin := ymin, xmin := xmin, ymax := ymax, xmax := xmax }

/-- Structural decoding of a `LayerData` from a parsed document. -/
def layerFromJson (j : Json) : Option LayerData := do
  let fs ← asObj j
  let id ← (getField fs "id").bind asStr
  let label ← (getField fs "label").bind asStr
  let ty ← ((getField fs "type").bind asStr).bind stringElementType
  let confidence ← (getField fs "confidence").bind asNum
  let box ← (getField fs "box").bind boxFromJson
  let zIndex ← (getField fs "zIndex").bind asNum
  let dominantColor ← (getField fs "dominantColor").bind asStr
  let visible ← (getField fs "visible").bind asBool
  pure { id := id, label := label, type := ty
         subtype := (getField fs "subtype").bind asStr
         confidence := confidence, box := box, zIndex := zIndex
         dominantColor := dominantColor, visible := visible
         maskUrl := (getField fs "maskUrl").bind asStr }

/-- Structural decoding of a `CompositionAnalysis` from a parsed
document. -/
def analysisFromJson (j : Json) : Option CompositionAnalysis := do
  let fs ← asObj j
  let ruleOfThirdsScore ← (getField fs "ruleOfThirdsScore").bind asNum
  let visualBalanceScore ← (getField fs "visualBalanceScore").bind asNum
  let dominantColors ← ((getField fs "dominantColors").bind asArr).bind
    (mapOption asStr)
  let brightnessMap ← (getField fs "brightnessMap").bind asStr
  let contrastLevel ← (getField fs "contrastLevel").bind asStr
  let suggestions ← ((getField fs "suggestions").bind asArr).bind
    (mapOption asStr)
  let eyeContact ← (getField fs "eyeContact").bind asBool
  let wc ← (getField fs "visualWeightCenter").bind asObj
  let wx ← (getField wc "x").bind asNum
  let wy ← (getField wc "y").bind asNum
  pure { ruleOfThirdsScore := ruleOfThirdsScore
         visualBalanceScore := visualBalanceScore
         dominantColors := dominantColors
         brightnessMap := brightnessMap, contrastLevel := contrastLevel
         suggestions := suggestions, eyeContact := eyeContact
         visualWeightCenter := { x := wx, y := wy } }

/-- Structural decoding of a `ProcessingResult` from a parsed document:
re-parsing the exported file. -/
def resultFromJson (j : Json) : Option ProcessingResult := do
  let fs ← asObj j
  let layers ← ((getField fs "layers").bind asArr).bind
    (mapOption layerFromJson)
  let analysis ← (getField fs "analysis").bind analysisFromJson
  pure { layers := layers, analysis := analysis }

/-! ## Concrete sample inputs

Small concrete responses and states used to evaluate the definitions. -/

/-- A well-formed raw analysis object with every optional field present
and truthy. -/
def sampleRawAnalysis : RawAnalysis :=
  { ruleOfThirdsScore := 70, visualBalanceScore := 60
    dominantColors := ["#ffffff", "#112233"]
    brightnessMap := some "Bright top", contrastLevel := some "High"
    suggestions := ["Increase contrast"], eyeContact := true
    weightCenterX := some 40, weightCenterY := some 60 }

/-- A raw analysis object whose optional fields are present but falsy
(empty strings and zero coordinates). -/
def falsyRawAnalysis : RawAnalysis :=
  { ruleOfThirdsScore := 70, visualBalanceScore := 60
    dominantColors := ["#ffffff"]
    brightnessMap := some "", contrastLevel := some ""
    suggestions := ["Increase contrast"], eyeContact := false
    weightCenterX := some 0, weightCenterY := some 0 }

/-- A non-background raw layer with a negative stacking order. -/
def negLayer : RawLayer :=
  { label := "Hero", type := ElementType.PERSON, subtype := none
    confidence := some 1, ymin := 0, xmin := 0, ymax := 100, xmax := 100
    zIndex := -1, dominantColor := "#ff0000" }

/-- A response with a single non-background layer of negative stacking
order. -/
def rawNegResponse : RawResponse :=
  { layers := [negLayer], analysis := sampleRawAnalysis }

/-- A raw layer whose confidence is present and equal to zero. -/
def zeroConfLayer : RawLayer :=
  { label := "Title", type := ElementType.TEXT, subtype := none
    confidence := some 0, ymin := 0, xmin := 0, ymax := 100, xmax := 100
    zIndex := 5, dominantColor := "#00ff00" }

/-- A response carrying present-but-falsy fields everywhere the
normalization applies defaults. -/
def zeroConfResponse : RawResponse :=
  { layers := [zeroConfLayer], analysis := falsyRawAnalysis }

/-- A raw background layer with stacking order 1. -/
def bgLayerZ1 : RawLayer :=
  { label := "Sky", type := ElementType.BACKGROUND, subtype := none
    confidence := some 1, ymin := 0, xmin := 0, ymax := 1000, xmax := 1000
    zIndex := 1, dominantColor := "#0000ff" }

/-- A raw text layer with stacking order 3. -/
def textLayerZ3 : RawLayer :=
  { label := "Caption", type := ElementType.TEXT, subtype := none
    confidence := some 1, ymin := 0, xmin := 0, ymax := 200, xmax := 900
    zIndex := 3, dominantColor := "#ffffff" }

/-- A raw person layer with stacking order 2. -/
def personLayerZ2 : RawLayer :=
  { label := "Streamer", type := ElementType.PERSON, subtype := some "Male"
    confidence := some (8/10), ymin := 100, xmin := 200, ymax := 900, xmax := 800
    zIndex := 2, dominantColor := "#aa8866" }

/-- A response whose layers arrive with stacking orders `[3, 1, 2]` and
already include a background layer. -/
def zOrderResponse : RawResponse :=
  { layers := [textLayerZ3, bgLayerZ1, personLayerZ2]
    analysis := sampleRawAnalysis }

/-- A normalized analysis value for building in-memory results. -/
def sampleAnalysis : CompositionAnalysis :=
  { ruleOfThirdsScore := 70, visualBalanceScore := 60
    dominantColors := ["#ffffff"], brightnessMap := "Balanced"
    contrastLevel := "Medium", suggestions := ["Increase contrast"]
    eyeContact := false, visualWeightCenter := { x := 50, y := 50 } }

/-- A small in-memory result. -/
def sampleResult : ProcessingResult :=
  { layers := [defaultBackground], analysis := sampleAnalysis }

/-! ## Helper lemmas -/

/-- Every layer of the pre-sort sequence carries `visible := true`. -/
lemma visible_of_mem_preSort {now : ℕ} {r : RawResponse} {l : LayerData}
    (h : l ∈ preSortLayers now r) : l.visible = true := by
  have hmap : ∀ x ∈ mappedLayers now r, LayerData.visible x = true := by
    intro x hx
    unfold mappedLayers at hx
    rw [List.mapIdx_eq_enum_map] at hx
    obtain ⟨⟨i, y⟩, _, rfl⟩ := List.mem_map.mp hx
    rfl
  unfold preSortLayers at h
  split at h
  · exact hmap l h
  · rcases List.mem_cons.mp h with h | h
    · rw [h]; rfl
    · exact hmap l h

/-- Double application of the per-layer toggle body is the identity. -/
lemma toggle_body_involutive (lid : String) (l : LayerData) :
    (if (if l.id == lid then { l with visible := !l.visible } else l).id == lid then
       { (if l.id == lid then { l with visible := !l.visible } else l) with
         visible := !(if l.id == lid then { l with visible := !l.visible } else l).visible }
     else (if l.id == lid then { l with visible := !l.visible } else l)) = l := by
  by_cases h : l.id = lid
  · simp [← h]
  · simp [h]

/-! ## Claims -/

/-- C4: composing the 0–1000-to-unit rescale with the pixel-space
conversion of `cropLayer` yields the source rectangle
`(xmin/1000·W, ymin/1000·H, (xmax−xmin)/1000·W, (ymax−ymin)/1000·H)`,
with nonnegative width and height; the equalities hold with no clamping
to the image bounds. -/
theorem c4_rescale_then_pixel_rect (xmin xmax ymin ymax : ℚ) (W H : ℕ)
    (hx0 : 0 ≤ xmin) (hx : xmin ≤ xmax) (hx1 : xmax ≤ 1000)
    (hy0 : 0 ≤ ymin) (hy : ymin ≤ ymax) (hy1 : ymax ≤ 1000) :
    cropRect (rescaleBox ymin xmin ymax xmax) (W : ℚ) (H : ℚ)
      = { sx := xmin / 1000 * W, sy := ymin / 1000 * H
          sw := (xmax - xmin) / 1000 * W, sh := (ymax - ymin) / 1000 * H }
    ∧ 0 ≤ (cropRect (rescaleBox ymin xmin ymax xmax) (W : ℚ) (H : ℚ)).sw
    ∧ 0 ≤ (cropRect (rescaleBox ymin xmin ymax xmax) (W : ℚ) (H : ℚ)).sh := by
  refine ⟨?_, ?_, ?_⟩
  · unfold cropRect rescaleBox
    have h1 : xmax / 1000 - xmin / 1000 = (xmax - xmin) / 1000 := by ring
    have h2 : ymax / 1000 - ymin / 1000 = (ymax - ymin) / 1000 := by ring
    rw [h1, h2]
  · unfold cropRect rescaleBox
    have hsub : 0 ≤ xmax / 1000 - xmin / 1000 := by
      have : xmin / 1000 ≤ xmax / 1000 := by
        apply div_le_div_of_nonneg_right hx
        norm_num
      linarith
    exact mul_nonneg hsub (Nat.cast_nonneg W)
  · unfold cropRect rescaleBox
    have hsub : 0 ≤ ymax / 1000 - ymin / 1000 := by
      have : ymin / 1000 ≤ ymax / 1000 := by
        apply div_le_div_of_nonneg_right hy
        norm_num
      linarith
    exact mul_nonneg hsub (Nat.cast_nonneg H)

/-- Witness for C4 at the box `(xmin, xmax, ymin, ymax) = (0, 1000, 0, 500)`
on a 2×4 image. -/
theorem c4_rescale_then_pixel_rect_witness :
    cropRect (rescaleBox 0 0 500 1000) ((2 : ℕ) : ℚ) ((4 : ℕ) : ℚ)
      = { sx := 0 / 1000 * (2 : ℕ), sy := 0 / 1000 * (4 : ℕ)
          sw := (1000 - 0) / 1000 * (2 : ℕ), sh := (500 - 0) / 1000 * (4 : ℕ) }
    ∧ 0 ≤ (cropRect (rescaleBox 0 0 500 1000) ((2 : ℕ) : ℚ) ((4 : ℕ) : ℚ)).sw
    ∧ 0 ≤ (cropRect (rescaleBox 0 0 500 1000) ((2 : ℕ) : ℚ) ((4 : ℕ) : ℚ)).sh :=
  c4_rescale_then_pixel_rect 0 1000 0 500 2 4 (by norm_num) (by norm_num)
    (by norm_num) (by norm_num) (by norm_num) (by norm_num)

/-- C5: when the 2D drawing context cannot be acquired
(`canvas.getContext("2d")` returns `null`), `cropLayer` returns the empty
string for every source image and bounding box; being a total function of
its inputs, it signals no error to the caller. -/
theorem c5_crop_without_context (img : ImageElement) (box : BoundingBox) :
    cropLayer none img box = "" := rfl

/-- C6 counterexample: from a concrete Error state holding an image and a
result, the "Try Again" transition keeps both; and from a concrete Success
state, the "New Project" transition keeps the layer selection. -/
theorem c6_counterexample :
    (tryAgain
      { app := { status := Status.ERROR, imageSrc := some "data:image/jpeg;base64,abc"
                 result := some sampleResult, error := some "network failure" }
        selectedLayerId := some "layer-bg-default" }).app.result ≠ none
    ∧ (tryAgain
      { app := { status := Status.ERROR, imageSrc := some "data:image/jpeg;base64,abc"
                 result := some sampleResult, error := some "network failure" }
        selectedLayerId := some "layer-bg-default" }).app.imageSrc ≠ none
    ∧ (newProject
      { app := { status := Status.SUCCESS, imageSrc := some "data:image/jpeg;base64,abc"
                 result := some sampleResult, error := none }
        selectedLayerId := some "layer-bg-default" }).selectedLayerId ≠ none := by
  refine ⟨?_, ?_, ?_⟩ <;> simp [tryAgain, newProject]

/-- C6 amended: "Try Again" from any state returns to Idle clearing only
the error message, retaining image, result and selection; "New Project"
replaces the whole app state with the cleared Idle state but retains the
layer selection. -/
theorem c6_reset_transitions (u : UIState) :
    (tryAgain u).app.status = Status.IDLE
    ∧ (tryAgain u).app.error = none
    ∧ (tryAgain u).app.imageSrc = u.app.imageSrc
    ∧ (tryAgain u).app.result = u.app.result
    ∧ (tryAgain u).selectedLayerId = u.selectedLayerId
    ∧ (newProject u).app
        = { status := Status.IDLE, imageSrc := none, result := none, error := none }
    ∧ (newProject u).selectedLayerId = u.selectedLayerId :=
  ⟨rfl, rfl, rfl, rfl, rfl, rfl, rfl⟩

/-- C9: every layer of a normalized result, the synthesized background
included, has its visibility flag set to true. -/
theorem c9_all_layers_visible (now : ℕ) (r : RawResponse) :
    ((analyzeThumbnail now r).layers.all fun l => l.visible) = true := by
  rw [List.all_eq_true]
  intro l hl
  simp only [analyzeThumbnail, sortLayers] at hl
  exact visible_of_mem_preSort ((List.mem_insertionSort zLe).mp hl)

/-- C10: toggling visibility twice with the same id restores the layer
list, and toggling with an id absent from the list leaves it unchanged. -/
theorem c10_toggle_involutive (ls : List LayerData) (lid : String) :
    toggleVis lid (toggleVis lid ls) = ls
    ∧ ((lid ∉ ls.map fun l => l.id) → toggleVis lid ls = ls) := by
  constructor
  · induction ls with
    | nil => rfl
    | cons a as ih =>
      simp only [toggleVis, List.map_cons] at ih ⊢
      rw [toggle_body_involutive]
      exact congrArg _ ih
  · intro h
    induction ls with
    | nil => rfl
    | cons a as ih =>
      simp only [List.map_cons, List.mem_cons, not_or] at h
      simp only [toggleVis, List.map_cons] at ih ⊢
      have ha : (a.id == lid) = false :=
        beq_eq_false_iff_ne.mpr (fun e => h.1 e.symm)
      rw [ha]
      simp only [Bool.false_eq_true, if_false]
      exact congrArg _ (ih h.2)

/-- Witness for C10: double toggle of the synthesized background layer's
id on a singleton list, and a toggle with an id that is not present. -/
theorem c10_toggle_involutive_witness :
    toggleVis "layer-bg-default" (toggleVis "layer-bg-default" [defaultBackground])
      = [defaultBackground]
    ∧ toggleVis "missing-id" [defaultBackground] = [defaultBackground] :=
  ⟨(c10_toggle_involutive [defaultBackground] "layer-bg-default").1,
   (c10_toggle_involutive [defaultBackground] "missing-id").2 (by decide)⟩

/-- C7: in a state whose result holds a layer with the given id (ids
being distinct, as every result produced by the normalization guarantees),
`handleToggleVisibility` flips the visibility flag of exactly that layer
in place — same length, same positions, every other layer untouched —
and leaves the analysis and the rest of the state unchanged. -/
theorem c7_toggle_exactly_one (s : AppState) (r : ProcessingResult) (i : ℕ)
    (lid : String) (hres : s.result = some r) (hi : i < r.layers.length)
    (hid : (r.layers.get ⟨i, hi⟩).id = lid)
    (huniq : (r.layers.map fun l => l.id).Nodup) :
    ∃ r', (handleToggleVisibility lid s).result = some r'
      ∧ (handleToggleVisibility lid s).status = s.status
      ∧ (handleToggleVisibility lid s).imageSrc = s.imageSrc
      ∧ (handleToggleVisibility lid s).error = s.error
      ∧ r'.analysis = r.analysis
      ∧ r'.layers.length = r.layers.length
      ∧ r'.layers.get? i
          = (r.layers.get? i).map (fun l => { l with visible := !l.visible })
      ∧ ∀ j, j ≠ i → r'.layers.get? j = r.layers.get? j := by
  obtain ⟨st, im, res, er⟩ := s
  simp only at hres
  subst hres
  refine ⟨{ r with layers := toggleVis lid r.layers },
    rfl, rfl, rfl, rfl, rfl, List.length_map _ _, ?_, ?_⟩
  · show (toggleVis lid r.layers).get? i = _
    unfold toggleVis
    rw [List.get?_map, List.get?_eq_get hi]
    simp only [Option.map_some']
    rw [if_pos]
    exact beq_iff_eq.mpr hid
  · intro j hj
    show (toggleVis lid r.layers).get? j = _
    unfold toggleVis
    rw [List.get?_map]
    by_cases hjlen : j < r.layers.length
    · rw [List.get?_eq_get hjlen]
      simp only [Option.map_some']
      have hne : (r.layers.get ⟨j, hjlen⟩).id ≠ lid := by
        intro he
        apply hj
        have h1 : (r.layers.map fun l => l.id).get ⟨j, by simpa using hjlen⟩
            = (r.layers.map fun l => l.id).get ⟨i, by simpa using hi⟩ := by
          rw [List.get_map, List.get_map]
          simpa using he.trans hid.symm
        have h2 := (huniq.get_inj_iff).mp h1
        simpa using congrArg Fin.val h2
      rw [if_neg]
      simp only [beq_iff_eq]
      exact hne
    · rw [List.get?_eq_none.mpr (by omega)]
      simp

/-- Witness for C7: toggling the only layer of a concrete Success
state. -/
theorem c7_toggle_exactly_one_witness :
    ∃ r', (handleToggleVisibility "layer-bg-default"
        { status := Status.SUCCESS, imageSrc := some "img"
          result := some sampleResult, error := none }).result = some r'
      ∧ (handleToggleVisibility "layer-bg-default"
          { status := Status.SUCCESS, imageSrc := some "img"
            result := some sampleResult, error := none }).status = Status.SUCCESS
      ∧ (handleToggleVisibility "layer-bg-default"
          { status := Status.SUCCESS, imageSrc := some "img"
            result := some sampleResult, error := none }).imageSrc = some "img"
      ∧ (handleToggleVisibility "layer-bg-default"
          { status := Status.SUCCESS, imageSrc := some "img"
            result := some sampleResult, error := none }).error = none
      ∧ r'.analysis = sampleResult.analysis
      ∧ r'.layers.length = sampleResult.layers.length
      ∧ r'.layers.get? 0
          = (sampleResult.layers.get? 0).map (fun l => { l with visible := !l.visible })
      ∧ ∀ j, j ≠ 0 → r'.layers.get? j = sampleResult.layers.get? j :=
  c7_toggle_exactly_one
    { status := Status.SUCCESS, imageSrc := some "img"
      result := some sampleResult, error := none }
    sampleResult 0 "layer-bg-default" rfl (by decide) (by decide) (by decide)

/-- C2 counterexample: a present confidence of 0 is replaced by the 0.9
default, a present empty brightness description becomes "Balanced", a
present empty contrast level becomes "Medium", and a present weight-center
coordinate of 0 becomes 50 — refuting "a present value, including 0 (or
present empty string), is kept". -/
theorem c2_counterexample :
    zeroConfLayer.confidence = some 0
    ∧ ((analyzeThumbnail 0 zeroConfResponse).layers.get? 1).map (fun l => l.confidence)
        = some (9/10)
    ∧ zeroConfResponse.analysis.brightnessMap = some ""
    ∧ (analyzeThumbnail 0 zeroConfResponse).analysis.brightnessMap = "Balanced"
    ∧ zeroConfResponse.analysis.contrastLevel = some ""
    ∧ (analyzeThumbnail 0 zeroConfResponse).analysis.contrastLevel = "Medium"
    ∧ zeroConfResponse.analysis.weightCenterX = some 0
    ∧ (analyzeThumbnail 0 zeroConfResponse).analysis.visualWeightCenter.x = 50 :=
  ⟨rfl, rfl, rfl, rfl, rfl, rfl, rfl, rfl⟩

/-- C2 amended: each default is applied exactly when the corresponding
response field is missing or carries a falsy present value (0 for a
number, the empty string for a string); any other present value is
preserved unchanged.  Confidence defaults to 0.9, brightness to
"Balanced", contrast to "Medium", and each visual-weight-center
coordinate independently to 50. -/
theorem c2_defaults_on_missing_or_falsy (now index : ℕ) (l : RawLayer)
    (a : RawAnalysis) :
    ((l.confidence = none ∨ l.confidence = some 0) →
        (normalizeLayer now index l).confidence = 9/10)
    ∧ (∀ c : ℚ, l.confidence = some c → c ≠ 0 →
        (normalizeLayer now index l).confidence = c)
    ∧ ((a.brightnessMap = none ∨ a.brightnessMap = some "") →
        (normalizeAnalysis a).brightnessMap = "Balanced")
    ∧ (∀ s : String, a.brightnessMap = some s → s ≠ "" →
        (normalizeAnalysis a).brightnessMap = s)
    ∧ ((a.contrastLevel = none ∨ a.contrastLevel = some "") →
        (normalizeAnalysis a).contrastLevel = "Medium")
    ∧ (∀ s : String, a.contrastLevel = some s → s ≠ "" →
        (normalizeAnalysis a).contrastLevel = s)
    ∧ ((a.weightCenterX = none ∨ a.weightCenterX = some 0) →
        (normalizeAnalysis a).visualWeightCenter.x = 50)
    ∧ (∀ c : ℚ, a.weightCenterX = some c → c ≠ 0 →
        (normalizeAnalysis a).visualWeightCenter.x = c)
    ∧ ((a.weightCenterY = none ∨ a.weightCenterY = some 0) →
        (normalizeAnalysis a).visualWeightCenter.y = 50)
    ∧ (∀ c : ℚ, a.weightCenterY = some c → c ≠ 0 →
        (normalizeAnalysis a).visualWeightCenter.y = c) := by
  refine ⟨?_, ?_, ?_, ?_, ?_, ?_, ?_, ?_, ?_, ?_⟩
  · rintro (h | h) <;> simp [normalizeLayer, orNum, h]
  · intro c hc hne; simp [normalizeLayer, orNum, hc, hne]
  · rintro (h | h) <;> simp [normalizeAnalysis, orStr, h]
  · intro s hs hne; simp [normalizeAnalysis, orStr, hs, hne]
  · rintro (h | h) <;> simp [normalizeAnalysis, orStr, h]
  · intro s hs hne; simp [normalizeAnalysis, orStr, hs, hne]
  · rintro (h | h) <;> simp [normalizeAnalysis, orNum, h]
  · intro c hc hne; simp [normalizeAnalysis, orNum, hc, hne]
  · rintro (h | h) <;> simp [normalizeAnalysis, orNum, h]
  · intro c hc hne; simp [normalizeAnalysis, orNum, hc, hne]

/-- Witness for C2: the defaults fire on the falsy sample response and
the kept values survive on the truthy sample response. -/
theorem c2_defaults_witness :
    (normalizeLayer 0 0 zeroConfLayer).confidence = 9/10
    ∧ (normalizeLayer 0 0 personLayerZ2).confidence = 8/10
    ∧ (normalizeAnalysis falsyRawAnalysis).brightnessMap = "Balanced"
    ∧ (normalizeAnalysis sampleRawAnalysis).brightnessMap = "Bright top"
    ∧ (normalizeAnalysis falsyRawAnalysis).contrastLevel = "Medium"
    ∧ (normalizeAnalysis sampleRawAnalysis).contrastLevel = "High"
    ∧ (normalizeAnalysis falsyRawAnalysis).visualWeightCenter.x = 50
    ∧ (normalizeAnalysis sampleRawAnalysis).visualWeightCenter.x = 40
    ∧ (normalizeAnalysis falsyRawAnalysis).visualWeightCenter.y = 50
    ∧ (normalizeAnalysis sampleRawAnalysis).visualWeightCenter.y = 60 :=
  ⟨(c2_defaults_on_missing_or_falsy 0 0 zeroConfLayer falsyRawAnalysis).1
      (Or.inr rfl),
   (c2_defaults_on_missing_or_falsy 0 0 personLayerZ2 sampleRawAnalysis).2.1
      (8/10) rfl (by norm_num),
   (c2_defaults_on_missing_or_falsy 0 0 zeroConfLayer falsyRawAnalysis).2.2.1
      (Or.inr rfl),
   (c2_defaults_on_missing_or_falsy 0 0 personLayerZ2 sampleRawAnalysis).2.2.2.1
      "Bright top" rfl (by decide),
   (c2_defaults_on_missing_or_falsy 0 0 zeroConfLayer falsyRawAnalysis).2.2.2.2.1
      (Or.inr rfl),
   (c2_defaults_on_missing_or_falsy 0 0 personLayerZ2 sampleRawAnalysis).2.2.2.2.2.1
      "High" rfl (by decide),
   (c2_defaults_on_missing_or_falsy 0 0 zeroConfLayer falsyRawAnalysis).2.2.2.2.2.2.1
      (Or.inr rfl),
   (c2_defaults_on_missing_or_falsy 0 0 personLayerZ2 sampleRawAnalysis).2.2.2.2.2.2.2.1
      40 rfl (by norm_num),
   (c2_defaults_on_missing_or_falsy 0 0 zeroConfLayer falsyRawAnalysis).2.2.2.2.2.2.2.2.1
      (Or.inr rfl),
   (c2_defaults_on_missing_or_falsy 0 0 personLayerZ2 sampleRawAnalysis).2.2.2.2.2.2.2.2.2
      60 rfl (by norm_num)⟩

/-- Inserting an element that is below every element of a list places it
at the head. -/
lemma orderedInsert_head_of_le (a : LayerData) (s : List LayerData)
    (h : ∀ x ∈ s, zLe a x) : List.orderedInsert zLe a s = a :: s := by
  cases s with
  | nil => rfl
  | cons b t =>
    unfold List.orderedInsert
    rw [if_pos (h b (List.mem_cons_self b t))]

/-- C1 counterexample: with a single non-background returned layer of
stacking order −1, a background layer is synthesized but ends up second,
not first, in the final sequence (sorting puts the −1 layer before the
synthesized background of order 0). -/
theorem c1_counterexample :
    (analyzeThumbnail 0 rawNegResponse).layers
        = [normalizeLayer 0 0 negLayer, defaultBackground]
    ∧ defaultBackground ∈ (analyzeThumbnail 0 rawNegResponse).layers
    ∧ (analyzeThumbnail 0 rawNegResponse).layers.head? ≠ some defaultBackground := by
  have hlist : (analyzeThumbnail 0 rawNegResponse).layers
      = [normalizeLayer 0 0 negLayer, defaultBackground] := rfl
  refine ⟨hlist, ?_, ?_⟩
  · rw [hlist]
    exact List.mem_cons_of_mem _ (List.mem_cons_self _ _)
  · rw [hlist]
    intro he
    have hids : (normalizeLayer 0 0 negLayer).id = defaultBackground.id := by
      have he' : normalizeLayer 0 0 negLayer = defaultBackground :=
        Option.some.inj he
      rw [he']
    exact absurd hids (by decide)

/-- C1 amended: a background layer is synthesized if and only if no
returned layer has category background; when synthesized it is exactly one
layer with full-frame box (0,0,1,1), stacking order 0, confidence 0.5,
dominant color #000000, prepended before the sort — hence first in the
final sequence whenever every returned layer has nonnegative stacking
order; when a background layer is already present the layer multiset is
unchanged, in particular the count. -/
theorem c1_background_synthesis (now : ℕ) (r : RawResponse) :
    ((analyzeThumbnail now r).layers.length
        = if (mappedLayers now r).any isBackground then (mappedLayers now r).length
          else (mappedLayers now r).length + 1)
    ∧ ((mappedLayers now r).any isBackground = false →
        (analyzeThumbnail now r).layers.Perm (defaultBackground :: mappedLayers now r)
        ∧ ((∀ l ∈ mappedLayers now r, 0 ≤ l.zIndex) →
            (analyzeThumbnail now r).layers.head? = some defaultBackground))
    ∧ ((mappedLayers now r).any isBackground = true →
        (analyzeThumbnail now r).layers.Perm (mappedLayers now r))
    ∧ defaultBackground.box = { ymin := 0, xmin := 0, ymax := 1, xmax := 1 }
    ∧ defaultBackground.zIndex = 0
    ∧ defaultBackground.confidence = 1/2
    ∧ defaultBackground.dominantColor = "#000000" := by
  have hperm : (analyzeThumbnail now r).layers.Perm (preSortLayers now r) :=
    List.perm_insertionSort zLe _
  refine ⟨?_, ?_, ?_, rfl, rfl, rfl, rfl⟩
  · rw [hperm.length_eq]
    unfold preSortLayers
    split
    · rfl
    · exact List.length_cons _ _
  · intro h
    have hpre : preSortLayers now r = defaultBackground :: mappedLayers now r := by
      simp [preSortLayers, h]
    constructor
    · exact hperm.trans (by rw [hpre])
    · intro hz
      show (sortLayers (preSortLayers now r)).head? = some defaultBackground
      rw [hpre]
      unfold sortLayers
      simp only [List.insertionSort]
      rw [orderedInsert_head_of_le]
      · rfl
      · intro x hx
        exact hz x ((List.mem_insertionSort zLe).mp hx)
  · intro h
    have hpre : preSortLayers now r = mappedLayers now r := by
      simp [preSortLayers, h]
    exact hperm.trans (by rw [hpre])

/-- Witness for C1: a response with no background layer and nonnegative
orders gets exactly the synthesized background first; a response already
containing a background layer is only permuted. -/
theorem c1_background_synthesis_witness :
    ((analyzeThumbnail 0 zeroConfResponse).layers.Perm
        (defaultBackground :: mappedLayers 0 zeroConfResponse)
      ∧ (analyzeThumbnail 0 zeroConfResponse).layers.head? = some defaultBackground)
    ∧ (analyzeThumbnail 0 zOrderResponse).layers.Perm (mappedLayers 0 zOrderResponse) :=
  ⟨⟨((c1_background_synthesis 0 zeroConfResponse).2.1 (by decide)).1,
    ((c1_background_synthesis 0 zeroConfResponse).2.1 (by decide)).2 (by decide)⟩,
   (c1_background_synthesis 0 zOrderResponse).2.2.1 (by decide)⟩

/-- Filtering on a fixed `zIndex` key commutes with `orderedInsert`: the
inserted element is prepended to the key's class when it matches, and the
class is untouched otherwise. -/
lemma filter_zkey_orderedInsert (k : ℚ) (a : LayerData) (l : List LayerData) :
    ((List.orderedInsert zLe a l).filter fun x => decide (x.zIndex = k))
    = if a.zIndex = k
      then a :: (l.filter fun x => decide (x.zIndex = k))
      else l.filter fun x => decide (x.zIndex = k) := by
  induction l with
  | nil =>
    by_cases h : a.zIndex = k <;> simp [List.orderedInsert, List.filter, h]
  | cons b t ih =>
    simp only [List.orderedInsert]
    by_cases hab : zLe a b
    · rw [if_pos hab]
      by_cases h : a.zIndex = k <;> simp [List.filter, h]
    · rw [if_neg hab]
      by_cases h : a.zIndex = k
      · have hb : b.zIndex ≠ k := fun hbk =>
          hab (le_of_eq (h.trans hbk.symm))
        simp [List.filter, hb, h, ih]
      · by_cases hb : b.zIndex = k <;> simp [List.filter, hb, h, ih]

/-- The insertion sort used for the final layer sequence is stable: it
preserves each `zIndex` class of the input verbatim. -/
lemma filter_zkey_insertionSort (k : ℚ) (l : List LayerData) :
    ((List.insertionSort zLe l).filter fun x => decide (x.zIndex = k))
    = l.filter fun x => decide (x.zIndex = k) := by
  induction l with
  | nil => rfl
  | cons a t ih =>
    simp only [List.insertionSort]
    rw [filter_zkey_orderedInsert]
    by_cases h : a.zIndex = k <;> simp [List.filter, h, ih]

/-- C3: the final layer sequence is sorted ascending by stacking order,
the sort is stable — for every stacking-order key, the layers with that
key appear exactly as in the pre-sort sequence — and the concrete response
with orders [3,1,2] (background included) comes out ordered [1,2,3]. -/
theorem c3_sorted_and_stable (now : ℕ) (r : RawResponse) :
    List.Sorted zLe (analyzeThumbnail now r).layers
    ∧ (∀ k : ℚ, ((analyzeThumbnail now r).layers.filter fun l => decide (l.zIndex = k))
        = (preSortLayers now r).filter fun l => decide (l.zIndex = k))
    ∧ ((analyzeThumbnail 0 zOrderResponse).layers.map fun l => l.zIndex) = [1, 2, 3] :=
  ⟨List.sorted_insertionSort zLe _, fun k => filter_zkey_insertionSort k _, rfl⟩

/-- Decoding a serialized string list recovers it. -/
lemma str_list_roundTrip (xs : List String) :
    mapOption asStr (xs.map Json.str) = some xs := by
  induction xs with
  | nil => rfl
  | cons a t ih => simp [mapOption, ih, asStr]

/-- Decoding a serialized layer recovers it, optional fields included. -/
lemma layer_roundTrip (l : LayerData) :
    layerFromJson (layerToJson l) = some l := by
  obtain ⟨id, label, ty, subty, conf, box, z, col, vis, mask⟩ := l
  cases ty <;> cases subty <;> cases mask <;> rfl

/-- Decoding a serialized layer array recovers it in order. -/
lemma layers_roundTrip (ls : List LayerData) :
    mapOption layerFromJson (ls.map layerToJson) = some ls := by
  induction ls with
  | nil => rfl
  | cons a t ih => simp [mapOption, ih, layer_roundTrip]

/-- Decoding a serialized composition analysis recovers it. -/
lemma analysis_roundTrip (a : CompositionAnalysis) :
    analysisFromJson (analysisToJson a) = some a := by
  obtain ⟨r3, vb, cols, bm, cl, sug, ec, ⟨wx, wy⟩⟩ := a
  simp [analysisToJson, analysisFromJson, asObj, getField, asNum, asStr,
    asBool, asArr, str_list_roundTrip, Option.bind]

/-- C8: re-parsing the document exported by `handleExportJSON` yields an
object structurally equal to the in-memory result, field for field —
layers with all their fields in order, plus the composition analysis. -/
theorem c8_export_roundTrip (r : ProcessingResult) :
    resultFromJson (resultToJson r) = some r := by
  obtain ⟨ls, a⟩ := r
  simp [resultToJson, resultFromJson, asObj, getField, asArr,
    layers_roundTrip, analysis_roundTrip, Option.bind]

end ThumbnailSeparator
